import Mathlib

/-!
Verification development for the ChatMaster activity-tracking plugin
(`src/main.py`). The Python module is shallowly embedded: the mutable
plugin object becomes an explicit `PluginState` record, Python dicts
become association lists with unique keys maintained by `assocSet`,
epoch timestamps become `Int` seconds, and the float `timeout_days`
configuration becomes an exact rational. Each `async` suspension point
that matters to a claim (the `await asyncio.to_thread` inside
`save_data`) is modelled by an explicit interleaving parameter.
External effects (filesystem write success, transport send success) are
modelled as boolean oracles passed in as arguments; logging is not
modelled.
-/

/-- Association-list lookup, first match wins (Python dict access `d[k]` /
`d.get(k)`; keys are unique in every list we build). -/
def assocLookup {α : Type} (l : List (String × α)) (k : String) : Option α :=
  match l with
  | [] => none
  | (k₁, v) :: rest => if k₁ = k then some v else assocLookup rest k

/-- Association-list insert/overwrite (Python dict assignment `d[k] = v`). -/
def assocSet {α : Type} (l : List (String × α)) (k : String) (v : α) :
    List (String × α) :=
  match l with
  | [] => [(k, v)]
  | (k₁, v₁) :: rest =>
      if k₁ = k then (k, v) :: rest else (k₁, v₁) :: assocSet rest k v

/-- The persisted data structure `self.data`: the daily run marker and the
group → (user → last-seen) watermark table (`data.json` shape,
`src/main.py:121`). -/
structure StoreData where
  global_last_run_date : String
  groups : List (String × List (String × Int))
deriving DecidableEq, Repr

/-- `default_data` from `load_data` (`src/main.py:121`). -/
def default_data : StoreData :=
  { global_last_run_date := "", groups := [] }

/-- The mutable plugin object: `self.data`, the dirty flag
`self.data_changed`, the durable file contents (`none` = no file), the
scheduler minute lock `self.last_processed_minute`, and the configuration
cache fields (`src/main.py:25`–`54`). -/
structure PluginState where
  data : StoreData
  data_changed : Bool
  disk : Option StoreData
  last_processed_minute : Int
  monitored_groups_set : List String
  exception_groups_set : List String
  enable_whitelist_global : Bool
  enable_mapping : Bool
  nickname_cache : List (String × String)
deriving DecidableEq, Repr

/-- `_is_group_whitelist_mode` (`src/main.py:114`–`118`): start from the
global flag and invert it when the group is in the exception set. -/
def is_group_whitelist_mode (st : PluginState) (group_id : String) : Bool :=
  let mode := st.enable_whitelist_global
  if group_id ∈ st.exception_groups_set then !mode else mode

/-- Spec-side definition (§4.4): `global_whitelist_flag XOR (group ∈
exception_set)`. -/
def effectiveWhitelistModeSpec (st : PluginState) (group_id : String) : Bool :=
  xor st.enable_whitelist_global (decide (group_id ∈ st.exception_groups_set))

/-- The `sender` object of an inbound event; only `user_id` is read. -/
structure Sender where
  user_id : String
deriving DecidableEq, Repr

/-- The inbound `message_obj`: `group_id` and `sender`, with `none`
standing for an absent/falsy field (`src/main.py:199`–`200`). -/
structure MessageObj where
  group_id : Option String
  sender : Option Sender
deriving DecidableEq, Repr

/-- `on_message` (`src/main.py:197`–`217`): the ingestion hot path.
Short-circuits on missing group or sender, on unmonitored groups, and on
whitelist mode without an alias; otherwise records `now` for
(group, user), creating the group bucket if absent, and sets the dirty
flag. -/
def on_message (st : PluginState) (event : MessageObj) (now : Int) :
    PluginState :=
  match event.group_id, event.sender with
  | none, _ => st
  | _, none => st
  | some group_id, some sender =>
      let user_id := sender.user_id
      if group_id ∉ st.monitored_groups_set then st
      else
        let use_whitelist := is_group_whitelist_mode st group_id
        if use_whitelist ∧ assocLookup st.nickname_cache user_id = none then st
        else
          let bucket := (assocLookup st.data.groups group_id).getD []
          { st with
            data := { st.data with
              groups := assocSet st.data.groups group_id
                (assocSet bucket user_id now) }
            data_changed := true }

/-- The watermark currently stored for (group, user): the nested dict
lookup `self.data["groups"][g][u]`. -/
def getWatermark (st : PluginState) (group_id user_id : String) : Option Int :=
  match assocLookup st.data.groups group_id with
  | none => none
  | some bucket => assocLookup bucket user_id

/-- `reset_check_status` state effect (`src/main.py:265`–`269`): clear the
daily marker, set the dirty flag; the subsequent `save_data` call is
applied by `reset_check_status_saved` below. -/
def reset_check_status (st : PluginState) : PluginState :=
  { st with
    data := { st.data with global_last_run_date := "" }
    data_changed := true }

/-- `save_data` (`src/main.py:155`–`164`): no-op when the dirty flag is
clear; otherwise deep-copy `self.data`, hand the copy to
`_save_data_atomic` on a worker thread, then clear the flag.
`_save_data_atomic` (`src/main.py:141`–`153`) swallows every exception
internally (it logs and returns), so the `await` always completes
normally and the flag is always cleared; `writeOk` says whether the
temp-file write + rename succeeded (on failure the previous durable file
is untouched). `mutate` models ingestion running concurrently during the
`await asyncio.to_thread` suspension (identity when nothing interleaves). -/
def save_data (st : PluginState) (writeOk : Bool)
    (mutate : PluginState → PluginState) : PluginState :=
  if st.data_changed = false then st
  else
    let data_copy := st.data
    let st₁ := mutate st
    { st₁ with
      disk := if writeOk then some data_copy else st₁.disk
      data_changed := false }

/-- `reset_check_status` followed by its `await self.save_data()`
(`src/main.py:269`), with no concurrent mutation. -/
def reset_check_status_saved (st : PluginState) (writeOk : Bool) : PluginState :=
  save_data (reset_check_status st) writeOk id

/-- `MAX_RETRIES` (`src/main.py:21`). -/
def MAX_RETRIES : Nat := 3

/-- `CATCH_UP_WINDOW` in hours (`src/main.py:22`). -/
def CATCH_UP_WINDOW : Int := 3

/-- `timeout_seconds = timeout_days_cfg * 24 * 3600` (`src/main.py:336`);
the float configuration value is modelled exactly as a rational. -/
def timeout_seconds_of (timeout_days : ℚ) : ℚ :=
  timeout_days * 24 * 3600

/-- The inactivity test `time_diff >= timeout_seconds` (`src/main.py:371`). -/
def is_inactive (timeout_seconds : ℚ) (time_diff : Int) : Bool :=
  decide (timeout_seconds ≤ (time_diff : ℚ))

/-- `days_silent = int(time_diff // 86400)` (`src/main.py:372`): Python
`//` is floor division, and `int` of the already-floored float is exact,
so this is `Int.fdiv`. -/
def days_silent (time_diff : Int) : Int :=
  Int.fdiv time_diff 86400

/-- The retry loop `for attempt in range(self.MAX_RETRIES)`
(`src/main.py:396`–`407`). `outcomes i` tells whether the i-th
`send_message` attempt succeeds (`True`) or raises (`False`). The loop
`break`s on the first success; a failure on the last attempt logs an
error. Result: (number of delivered messages, whether the final failure
was logged). The exception of a failed attempt is always caught, so the
loop itself never raises. -/
def send_retry_loop (outcomes : Nat → Bool) : Nat → Nat → Nat × Bool
  | _, 0 => (0, false)
  | attempt, remaining + 1 =>
      if outcomes attempt then (1, false)
      else if remaining = 0 then (0, true)
      else send_retry_loop outcomes (attempt + 1) remaining

/-- The whole bounded-retry dispatch for one group, starting at attempt 0
with `MAX_RETRIES` iterations available. -/
def send_with_retry (outcomes : Nat → Bool) : Nat × Bool :=
  send_retry_loop outcomes 0 MAX_RETRIES

/-- Observable outcome of `run_inspection` for one monitored group. -/
inductive GroupResult where
  | noData
  | allActive
  | dispatched (delivered : Nat) (failureLogged : Bool)
  | intercepted
deriving DecidableEq, Repr

/-- The body of the `for group_id in self.monitored_groups_set` loop of
`run_inspection` (`src/main.py:343`–`418`), for one group: read the
group bucket, resolve whitelist mode, skip whitelist users without an
alias, collect the inactive users (`msg_list`), and either dispatch with
retry (`send_message` true), intercept (false), or report all-active /
no-data. The store is only read, never written. The per-group
`try`/`except` plus the retry loop absorb send failures, so the body
always produces a result. -/
def inspect_group (st : PluginState) (now_ts : Int) (timeout_seconds : ℚ)
    (send_message : Bool) (sendOutcomes : String → Nat → Bool)
    (group_id : String) : String × GroupResult :=
  let group_data := (assocLookup st.data.groups group_id).getD []
  let use_whitelist := is_group_whitelist_mode st group_id
  if group_data = [] then (group_id, GroupResult.noData)
  else
    let in_scope := group_data.filter fun p =>
      !(use_whitelist && (assocLookup st.nickname_cache p.1).isNone)
    let msg_list := in_scope.filter fun p =>
      is_inactive timeout_seconds (now_ts - p.2)
    if msg_list = [] then (group_id, GroupResult.allActive)
    else if send_message then
      let r := send_with_retry (sendOutcomes group_id)
      (group_id, GroupResult.dispatched r.1 r.2)
    else (group_id, GroupResult.intercepted)

/-- `run_inspection` (`src/main.py:334`–`418`): process every monitored
group in turn; one group's dispatch failure never prevents processing of
the others (the early `return` on an empty monitored set coincides with
mapping over the empty list). -/
def run_inspection (st : PluginState) (now_ts : Int) (timeout_seconds : ℚ)
    (send_message : Bool) (sendOutcomes : String → Nat → Bool) :
    List (String × GroupResult) :=
  st.monitored_groups_set.map
    (inspect_group st now_ts timeout_seconds send_message sendOutcomes)

/-- What one `check_schedule` evaluation did: a dispatch-enabled
inspection (line 320), the missed-window warning branch (line 322), the
silent self-check (line 332), or nothing. -/
inductive SchedAction where
  | dispatchRun
  | lateSkipWarn
  | silentRun
  | noAction
deriving DecidableEq, Repr

/-- `check_schedule` (`src/main.py:292`–`332`). Wall-clock inputs
(`current_minutes` = minute of day of `datetime.now()`, `today` = its
date string) are parameters; `target_minutes` comes from the parsed push
time. Returns the new state, which branch acted, and the inspection
report when `run_inspection` ran. The dirty-marker write plus the
synchronous `await self.save_data()` of lines 324–326 are applied in the
first branch. -/
def check_schedule (st : PluginState) (target_minutes current_minutes : Int)
    (today : String) (now_ts : Int) (timeout_seconds : ℚ)
    (sendOutcomes : String → Nat → Bool) (writeOk : Bool) :
    PluginState × SchedAction × Option (List (String × GroupResult)) :=
  if current_minutes = st.last_processed_minute then
    (st, SchedAction.noAction, none)
  else
    let st₁ := { st with last_processed_minute := current_minutes }
    let in_window : Bool :=
      decide (current_minutes - target_minutes ≤ CATCH_UP_WINDOW * 60)
    let is_time_up : Bool :=
      if current_minutes > target_minutes ∧ in_window = true then true
      else decide (current_minutes = target_minutes)
    let last_run := st₁.data.global_last_run_date
    if is_time_up = true ∧ last_run ≠ today then
      let report :=
        if in_window = true then
          some (run_inspection st₁ now_ts timeout_seconds true sendOutcomes)
        else none
      let action :=
        if in_window = true then SchedAction.dispatchRun
        else SchedAction.lateSkipWarn
      let st₂ := { st₁ with
        data := { st₁.data with global_last_run_date := today }
        data_changed := true }
      (save_data st₂ writeOk id, action, report)
    else if current_minutes = target_minutes ∧ last_run = today then
      (st₁, SchedAction.silentRun,
        some (run_inspection st₁ now_ts timeout_seconds false sendOutcomes))
    else
      (st₁, SchedAction.noAction, none)

/-- JSON values, for modelling what `json.loads` can hand back to
`load_data`. -/
inductive JVal where
  | jstr (s : String)
  | jnum (n : Int)
  | jbool (b : Bool)
  | jnull
  | jarr (elems : List JVal)
  | jobj (fields : List (String × JVal))

/-- What reading `data.json` can yield: no file (`os.path.exists` false),
whitespace-only content, content on which `json.loads` raises, or a
parsed JSON value. -/
inductive FileRead where
  | missing
  | empty
  | parseError
  | parsed (v : JVal)

/-- `default_data` as the JSON value `load_data` builds
(`src/main.py:121`). -/
def default_json : JVal :=
  JVal.jobj [("global_last_run_date", JVal.jstr ""), ("groups", JVal.jobj [])]

/-- Field access on a JSON object (Python `loaded[k]` / `k in loaded`). -/
def jvalLookup (v : JVal) (k : String) : Option JVal :=
  match v with
  | JVal.jobj fields => assocLookup fields k
  | _ => none

/-- Lines 132–135 of `load_data`: add `"groups"` and then
`"global_last_run_date"` with default values when the keys are absent,
leaving present keys untouched. -/
def fill_defaults (fields : List (String × JVal)) : List (String × JVal) :=
  let fields₁ :=
    if (assocLookup fields "groups").isNone then
      assocSet fields "groups" (JVal.jobj [])
    else fields
  if (assocLookup fields₁ "global_last_run_date").isNone then
    assocSet fields₁ "global_last_run_date" (JVal.jstr "")
  else fields₁

/-- `load_data` (`src/main.py:120`–`139`): defaults on a missing or empty
file; the whole read/parse is inside `try`, so a parse failure is caught,
logged and turned into defaults; a parsed non-`dict` value yields
defaults; a parsed `dict` is returned after `fill_defaults`. Totality of
this function is the "never raises to its caller" part of the contract. -/
def load_data : FileRead → JVal
  | FileRead.missing => default_json
  | FileRead.empty => default_json
  | FileRead.parseError => default_json
  | FileRead.parsed v =>
      match v with
      | JVal.jobj fields => JVal.jobj (fill_defaults fields)
      | _ => default_json

/-- Spec-side definition, from §6 of the spec: the persisted snapshot has
shape `\x7bglobal_last_run_date: string, groups: \x7bgroup_id:
\x7buser_id: last_seen_epoch_seconds\x7d\x7d\x7d`. -/
def specIsNum : JVal → Bool
  | JVal.jnum _ => true
  | _ => false

/-- Spec-side: a `user_id → last_seen` bucket. -/
def specIsUserMap : JVal → Bool
  | JVal.jobj fields => fields.all fun p => specIsNum p.2
  | _ => false

/-- Spec-side: the `groups` table of buckets. -/
def specIsGroupsMap : JVal → Bool
  | JVal.jobj fields => fields.all fun p => specIsUserMap p.2
  | _ => false

/-- Spec-side: well-shaped persisted content per the spec's persisted
state interface (§6). -/
def specWellShaped : JVal → Bool
  | JVal.jobj fields =>
      match assocLookup fields "global_last_run_date",
            assocLookup fields "groups" with
      | some (JVal.jstr _), some g => specIsGroupsMap g
      | _, _ => false
  | _ => false

/-- A plugin state used to instantiate theorems on concrete inputs: a
dirty store holding one watermark, track-all mode, one monitored group. -/
def exampleDirtyState : PluginState :=
  { data := { global_last_run_date := "", groups := [("g1", [("u1", 100)])] }
    data_changed := true
    disk := none
    last_processed_minute := -1
    monitored_groups_set := ["g1"]
    exception_groups_set := []
    enable_whitelist_global := false
    enable_mapping := true
    nickname_cache := [] }

/-- A clean variant of `exampleDirtyState`: empty store, clean flag,
minute lock at its initial −1. -/
def exampleCleanState : PluginState :=
  { data := default_data
    data_changed := false
    disk := none
    last_processed_minute := -1
    monitored_groups_set := ["g1"]
    exception_groups_set := []
    enable_whitelist_global := false
    enable_mapping := true
    nickname_cache := [] }

/-- `exampleCleanState` after the daily marker was written for
2026-10-12, with the minute lock on minute 540. -/
def exampleRanTodayState : PluginState :=
  { exampleCleanState with
    data := { default_data with global_last_run_date := "2026-10-12" }
    last_processed_minute := 540 }

theorem assocLookup_assocSet {α : Type} (l : List (String × α)) (k k₁ : String)
    (v : α) :
    assocLookup (assocSet l k v) k₁ = if k₁ = k then some v else assocLookup l k₁ := by
  induction l with
  | nil =>
      by_cases h : k = k₁
      · subst h; simp [assocSet, assocLookup]
      · simp [assocSet, assocLookup, h, Ne.symm h]
  | cons p rest ih =>
      obtain ⟨k₂, v₂⟩ := p
      by_cases h₂ : k₂ = k
      · subst h₂
        by_cases h : k₂ = k₁
        · subst h; simp [assocSet, assocLookup]
        · simp [assocSet, assocLookup, h, Ne.symm h]
      · by_cases h : k₂ = k₁
        · have h₁ : ¬ k₁ = k := fun hh => h₂ (h.trans hh)
          simp [assocSet, assocLookup, h₂, h, h₁]
        · simp [assocSet, assocLookup, h₂, h, ih]

/-- Claim C7: for every group and every setting of the global whitelist
flag, `_is_group_whitelist_mode` computes the global flag XOR membership
in the exception set (so membership inverts the global default, and
non-members get the global default unchanged). -/
theorem claim_C7_whitelist_xor (st : PluginState) (g : String) :
    is_group_whitelist_mode st g = effectiveWhitelistModeSpec st g := by
  by_cases h : g ∈ st.exception_groups_set <;>
    cases hb : st.enable_whitelist_global <;>
      simp [is_group_whitelist_mode, effectiveWhitelistModeSpec, h, hb]

/-- Claim C9: the reset command (`reset_check_status` followed by its
synchronous save) sets `global_last_run_date` to the empty string and
leaves the groups mapping — every (group, user) watermark entry —
exactly as it was, regardless of whether the durable write succeeds. -/
theorem claim_C9_reset_frame (st : PluginState) (writeOk : Bool) :
    (reset_check_status_saved st writeOk).data.global_last_run_date = ""
    ∧ (reset_check_status_saved st writeOk).data.groups = st.data.groups := by
  simp [reset_check_status_saved, reset_check_status, save_data]

/-- Claim C10: an inbound event that carries a group id but no sender is
dropped at the top of `on_message` (`src/main.py:200`), leaving the
whole plugin state — watermark store and dirty flag included —
unchanged. -/
theorem claim_C10_no_sender (st : PluginState) (e : MessageObj) (now : Int)
    (gid : String) (hg : e.group_id = some gid) (hs : e.sender = none) :
    on_message st e now = st := by
  obtain ⟨g, s⟩ := e
  simp only at hg hs
  subst hg; subst hs
  rfl

theorem claim_C10_witness :
    on_message exampleDirtyState ⟨some "g1", none⟩ 5 = exampleDirtyState :=
  claim_C10_no_sender exampleDirtyState ⟨some "g1", none⟩ 5 "g1" rfl rfl

/-- Claim C2 counterexample: the claim says that after `save_data`
completes with the underlying write having failed, the dirty flag is
still set. On the code it is not: `_save_data_atomic` swallows the I/O
failure (it logs and returns), so the `await` in `save_data` completes
normally and `self.data_changed = False` runs. Concretely: a dirty
state, the write fails (the durable file is untouched, first conjunct),
yet the flag ends cleared (last conjunct). -/
theorem claim_C2_counterexample :
    exampleDirtyState.data_changed = true
    ∧ (save_data exampleDirtyState false id).disk = exampleDirtyState.disk
    ∧ (save_data exampleDirtyState false id).data_changed = false :=
  ⟨rfl, rfl, rfl⟩

/-- Claim C2 as amended: `save_data` on a dirty state snapshots
`self.data` at entry, attempts the write, and clears the dirty flag
regardless of whether the write succeeded and regardless of any
concurrent mutation during the awaited write; on success the durable
file holds the entry-time snapshot (which excludes the concurrent
mutation), on failure it is untouched. -/
theorem claim_C2_amended (st : PluginState) (writeOk : Bool)
    (mutate : PluginState → PluginState) (h : st.data_changed = true) :
    (save_data st writeOk mutate).data_changed = false
    ∧ (save_data st writeOk mutate).disk =
        (if writeOk then some st.data else (mutate st).disk)
    ∧ (save_data st writeOk mutate).data = (mutate st).data := by
  simp [save_data, h]

theorem claim_C2_witness :
    (save_data exampleDirtyState false id).data_changed = false
    ∧ (save_data exampleDirtyState false id).disk =
        (if false then some exampleDirtyState.data
         else (id exampleDirtyState).disk)
    ∧ (save_data exampleDirtyState false id).data =
        (id exampleDirtyState).data :=
  claim_C2_amended exampleDirtyState false id rfl

theorem assocLookup_fill_step {α : Type} (l : List (String × α)) (k₀ : String)
    (d : α) (k : String) (v : α) (h : assocLookup l k = some v) :
    assocLookup
      (if (assocLookup l k₀).isNone then assocSet l k₀ d else l) k = some v := by
  by_cases h₀ : (assocLookup l k₀).isNone = true
  · have hk : ¬ k = k₀ := by
      intro he
      subst he
      rw [h] at h₀
      simp at h₀
    simp [h₀, assocLookup_assocSet, hk, h]
  · simp [h₀, h]

theorem assocLookup_fill_step_key {α : Type} (l : List (String × α))
    (k₀ : String) (d : α) :
    (assocLookup
      (if (assocLookup l k₀).isNone then assocSet l k₀ d else l) k₀).isSome
      = true := by
  by_cases h₀ : (assocLookup l k₀).isNone = true
  · simp [h₀, assocLookup_assocSet]
  · cases hl : assocLookup l k₀ with
    | none => rw [hl] at h₀; simp at h₀
    | some v => simp [h₀, hl]

theorem assocLookup_fill_step_mono {α : Type} (l : List (String × α))
    (k₀ : String) (d : α) (k : String)
    (h : (assocLookup l k).isSome = true) :
    (assocLookup
      (if (assocLookup l k₀).isNone then assocSet l k₀ d else l) k).isSome
      = true := by
  by_cases h₀ : (assocLookup l k₀).isNone = true
  · by_cases hk : k = k₀ <;> simp [h₀, assocLookup_assocSet, hk, h]
  · simp [h₀, h]

/-- Claim C4 counterexample: the claim says content of the wrong shape
yields the empty defaults. `load_data` only checks that the top level is
a `dict`: the valid-JSON object whose `"groups"` field is the number 5
is not well shaped per the spec's persisted-state schema (first
conjunct), yet `load_data` keeps it verbatim — its `"groups"` field is
still the number 5, while the defaults carry the empty object, so the
returned value is not the empty defaults. -/
theorem claim_C4_counterexample :
    specWellShaped (JVal.jobj [("groups", JVal.jnum 5)]) = false
    ∧ jvalLookup (load_data (FileRead.parsed (JVal.jobj [("groups", JVal.jnum 5)])))
        "groups" = some (JVal.jnum 5)
    ∧ jvalLookup default_json "groups" = some (JVal.jobj [])
    ∧ some (JVal.jnum 5) ≠ some (JVal.jobj []) :=
  ⟨rfl, rfl, rfl, fun h => JVal.noConfusion (Option.some.inj h)⟩

/-- Claim C4 as amended: `load_data` is total (never raises to its
caller) and returns the empty defaults on a missing file, an empty file,
unparseable content, and content parsing to a non-object top level; a
top-level object is returned with every present field kept verbatim —
its inner types are not validated — and with the `"groups"` and
`"global_last_run_date"` keys guaranteed present afterwards. -/
theorem claim_C4_amended (c : FileRead) :
    ((∀ fields, c ≠ FileRead.parsed (JVal.jobj fields)) →
       load_data c = default_json)
    ∧ (∀ fields, c = FileRead.parsed (JVal.jobj fields) →
        (∀ k v, assocLookup fields k = some v →
           jvalLookup (load_data c) k = some v)
        ∧ (jvalLookup (load_data c) "groups").isSome = true
        ∧ (jvalLookup (load_data c) "global_last_run_date").isSome = true) := by
  constructor
  · intro h
    cases c with
    | missing => rfl
    | empty => rfl
    | parseError => rfl
    | parsed v =>
        cases v with
        | jstr s => rfl
        | jnum n => rfl
        | jbool b => rfl
        | jnull => rfl
        | jarr elems => rfl
        | jobj fields => exact absurd rfl (h fields)
  · intro fields hc
    subst hc
    refine ⟨?_, ?_, ?_⟩
    · intro k v h
      show assocLookup (fill_defaults fields) k = some v
      exact assocLookup_fill_step _ _ _ _ _ (assocLookup_fill_step _ _ _ _ _ h)
    · show (assocLookup (fill_defaults fields) "groups").isSome = true
      exact assocLookup_fill_step_mono _ _ _ _ (assocLookup_fill_step_key _ _ _)
    · show (assocLookup (fill_defaults fields) "global_last_run_date").isSome
        = true
      exact assocLookup_fill_step_key _ _ _

theorem claim_C4_witness :
    load_data FileRead.missing = default_json :=
  (claim_C4_amended FileRead.missing).1 fun _ h => FileRead.noConfusion h

/-- Claim C6: with `timeout_days = 1.0` the threshold is 86400 seconds; a
user whose age `now - last_seen` is strictly below 86400 is classified
active, and a user at or above 86400 is classified inactive with the
whole-days-silent count equal to the mathematical floor of age/86400. -/
theorem claim_C6_classification (now_ts last_seen : Int) :
    (now_ts - last_seen < 86400 →
       is_inactive (timeout_seconds_of 1) (now_ts - last_seen) = false)
    ∧ (86400 ≤ now_ts - last_seen →
       is_inactive (timeout_seconds_of 1) (now_ts - last_seen) = true
       ∧ days_silent (now_ts - last_seen)
           = ⌊((now_ts - last_seen : Int) : ℚ) / 86400⌋) := by
  have hts : timeout_seconds_of 1 = (86400 : ℚ) := by
    norm_num [timeout_seconds_of]
  constructor
  · intro h
    rw [hts]
    simp only [is_inactive, decide_eq_false_iff_not, not_le]
    exact_mod_cast h
  · intro h
    constructor
    · rw [hts]
      simp only [is_inactive, decide_eq_true_eq]
      exact_mod_cast h
    · simp only [days_silent]
      rw [Int.fdiv_eq_ediv _ (by norm_num)]
      rw [show ((86400 : ℚ)) = ((86400 : ℕ) : ℚ) from by norm_cast]
      rw [Rat.floor_intCast_div_natCast]
      norm_num

theorem claim_C6_witness :
    is_inactive (timeout_seconds_of 1) ((86399 : Int) - 0) = false
    ∧ is_inactive (timeout_seconds_of 1) ((86401 : Int) - 0) = true
    ∧ days_silent ((86401 : Int) - 0) = 1 := by
  refine ⟨(claim_C6_classification 86399 0).1 (by norm_num),
          ((claim_C6_classification 86401 0).2 (by norm_num)).1, ?_⟩
  rw [((claim_C6_classification 86401 0).2 (by norm_num)).2]
  norm_num

theorem inspect_group_fst (st : PluginState) (now_ts : Int)
    (timeout_seconds : ℚ) (send_message : Bool)
    (sendOutcomes : String → Nat → Bool) (group_id : String) :
    (inspect_group st now_ts timeout_seconds send_message sendOutcomes
      group_id).1 = group_id := by
  simp only [inspect_group]
  split
  · rfl
  · split
    · rfl
    · split <;> rfl

theorem map_fst_inspect (st : PluginState) (now_ts : Int)
    (timeout_seconds : ℚ) (send_message : Bool)
    (sendOutcomes : String → Nat → Bool) (l : List String) :
    (l.map (inspect_group st now_ts timeout_seconds send_message
      sendOutcomes)).map Prod.fst = l := by
  induction l with
  | nil => rfl
  | cons g rest ih => simp [inspect_group_fst, ih]

/-- Claim C8: in the per-group dispatch of `run_inspection`, a transport
that fails twice then succeeds yields exactly one delivered message and
the retry loop finishes without logging a failure (no error escapes to
the scheduler loop — `send_with_retry` is total); a transport failing on
all `MAX_RETRIES` = 3 attempts delivers nothing and only logs a failure;
and in either case the inspection still produces one result per
monitored group, in order — one group's outcome never prevents
processing of the next. -/
theorem claim_C8_dispatch_retry :
    (∀ o : Nat → Bool, o 0 = false → o 1 = false → o 2 = true →
        send_with_retry o = (1, false))
    ∧ (∀ o : Nat → Bool, o 0 = false → o 1 = false → o 2 = false →
        send_with_retry o = (0, true))
    ∧ ∀ (st : PluginState) (now_ts : Int) (timeout_seconds : ℚ)
        (send_message : Bool) (sendOutcomes : String → Nat → Bool),
        (run_inspection st now_ts timeout_seconds send_message
          sendOutcomes).map Prod.fst = st.monitored_groups_set := by
  refine ⟨?_, ?_, ?_⟩
  · intro o h0 h1 h2
    simp [send_with_retry, MAX_RETRIES, send_retry_loop, h0, h1, h2]
  · intro o h0 h1 h2
    simp [send_with_retry, MAX_RETRIES, send_retry_loop, h0, h1, h2]
  · intro st now_ts timeout_seconds send_message sendOutcomes
    exact map_fst_inspect st now_ts timeout_seconds send_message
      sendOutcomes st.monitored_groups_set

theorem claim_C8_witness :
    send_with_retry (fun i => decide (i = 2)) = (1, false)
    ∧ send_with_retry (fun _ => false) = (0, true)
    ∧ (run_inspection exampleDirtyState 1000000 86400 true
        (fun _ _ => false)).map Prod.fst = ["g1"] :=
  ⟨claim_C8_dispatch_retry.1 (fun i => decide (i = 2)) rfl rfl rfl,
   claim_C8_dispatch_retry.2.1 (fun _ => false) rfl rfl rfl,
   claim_C8_dispatch_retry.2.2 exampleDirtyState 1000000 86400 true
     (fun _ _ => false)⟩

/-- Claim C5: for an inbound group-message event that carries a sender,
the ingestion path records `now` as the watermark for (group, user) —
creating the group bucket if absent — and sets the dirty flag, exactly
when the event has a group context, the group is monitored, and it is
not the case that the group's effective mode is whitelist while the user
has no alias entry; in every other case the whole state is left
unchanged. The daily marker is never touched. -/
theorem claim_C5_ingestion (st : PluginState) (e : MessageObj) (now : Int)
    (s : Sender) (hs : e.sender = some s) :
    (∀ gid, e.group_id = some gid →
      ((gid ∈ st.monitored_groups_set ∧
          ¬(is_group_whitelist_mode st gid = true
            ∧ assocLookup st.nickname_cache s.user_id = none)) →
        ((on_message st e now).data_changed = true
         ∧ (on_message st e now).data.global_last_run_date
             = st.data.global_last_run_date
         ∧ ∀ g u, getWatermark (on_message st e now) g u =
             if g = gid ∧ u = s.user_id then some now
             else getWatermark st g u))
      ∧ (¬(gid ∈ st.monitored_groups_set ∧
            ¬(is_group_whitelist_mode st gid = true
              ∧ assocLookup st.nickname_cache s.user_id = none)) →
          on_message st e now = st))
    ∧ (e.group_id = none → on_message st e now = st) := by
  obtain ⟨gq, sq⟩ := e
  simp only at hs
  subst hs
  constructor
  · intro gid hg
    simp only at hg
    subst hg
    constructor
    · rintro ⟨hmon, hwl⟩
      simp only [on_message]
      rw [if_neg (not_not_intro hmon), if_neg hwl]
      refine ⟨rfl, rfl, ?_⟩
      intro g u
      by_cases hgg : g = gid
      · subst hgg
        simp only [getWatermark]
        rw [assocLookup_assocSet, if_pos rfl]
        dsimp only
        rw [assocLookup_assocSet]
        by_cases huu : u = s.user_id
        · simp [huu]
        · rw [if_neg huu, if_neg (fun hc => huu hc.2)]
          cases hb : assocLookup st.data.groups g with
          | none => rfl
          | some bucket => rfl
      · have hand : ¬ (g = gid ∧ u = s.user_id) := fun hc => hgg hc.1
        rw [if_neg hand]
        simp only [getWatermark]
        rw [assocLookup_assocSet, if_neg hgg]
    · intro hnot
      simp only [on_message]
      by_cases hmon : gid ∈ st.monitored_groups_set
      · have hwl : is_group_whitelist_mode st gid = true
            ∧ assocLookup st.nickname_cache s.user_id = none := by
          by_contra hc
          exact hnot ⟨hmon, hc⟩
        rw [if_neg (not_not_intro hmon), if_pos hwl]
      · rw [if_pos hmon]
  · intro h
    simp only at h
    subst h
    rfl

theorem claim_C5_witness :
    (on_message exampleCleanState
       { group_id := some "g1", sender := some { user_id := "u1" } }
       42).data_changed = true
    ∧ getWatermark (on_message exampleCleanState
       { group_id := some "g1", sender := some { user_id := "u1" } }
       42) "g1" "u1" = some 42 := by
  have h := ((claim_C5_ingestion exampleCleanState
    { group_id := some "g1", sender := some { user_id := "u1" } }
    42 { user_id := "u1" } rfl).1 "g1" rfl).1 ⟨by decide, by decide⟩
  exact ⟨h.1, by rw [h.2.2 "g1" "u1"]; simp⟩

/-- Claim C3: at most one dispatch-enabled inspection per calendar day.
In a DUE_FIRST evaluation (minute lock passes, target time reached,
within the catch-up window, marker not yet today) `check_schedule` runs
the dispatch-enabled inspection and sets `global_last_run_date` to
today for every transport outcome and every durable-write outcome —
per-group send failures are absorbed inside `run_inspection`
(`send_with_retry` always returns) and cannot prevent the marker write.
And whenever the marker already equals today, the evaluation never
produces a dispatch-enabled run. -/
theorem claim_C3_once_per_day (st : PluginState)
    (target_minutes current_minutes : Int) (today : String) (now_ts : Int)
    (timeout_seconds : ℚ) (sendOutcomes : String → Nat → Bool)
    (writeOk : Bool) :
    (current_minutes ≠ st.last_processed_minute →
     target_minutes ≤ current_minutes →
     current_minutes - target_minutes ≤ CATCH_UP_WINDOW * 60 →
     st.data.global_last_run_date ≠ today →
       (check_schedule st target_minutes current_minutes today now_ts
          timeout_seconds sendOutcomes writeOk).2.1 = SchedAction.dispatchRun
       ∧ (check_schedule st target_minutes current_minutes today now_ts
            timeout_seconds sendOutcomes writeOk).1.data.global_last_run_date
          = today)
    ∧ (st.data.global_last_run_date = today →
       (check_schedule st target_minutes current_minutes today now_ts
          timeout_seconds sendOutcomes writeOk).2.1
         ≠ SchedAction.dispatchRun) := by
  constructor
  · intro h1 h2 h3 h4
    have hiw : decide
        (current_minutes - target_minutes ≤ CATCH_UP_WINDOW * 60) = true :=
      decide_eq_true h3
    have hitu : (if current_minutes > target_minutes ∧ decide
        (current_minutes - target_minutes ≤ CATCH_UP_WINDOW * 60) = true
        then true else decide (current_minutes = target_minutes)) = true := by
      rcases lt_or_eq_of_le h2 with hlt | heq
      · rw [if_pos ⟨hlt, hiw⟩]
      · rw [if_neg (fun hc : current_minutes > target_minutes ∧ _ =>
          absurd hc.1 (by omega))]
        exact decide_eq_true heq.symm
    have houter : (if current_minutes > target_minutes ∧ decide
        (current_minutes - target_minutes ≤ CATCH_UP_WINDOW * 60) = true
        then true else decide (current_minutes = target_minutes)) = true
        ∧ ({ st with last_processed_minute := current_minutes } :
            PluginState).data.global_last_run_date ≠ today := ⟨hitu, h4⟩
    simp only [check_schedule]
    rw [if_neg h1, if_pos houter, if_pos hiw, if_pos hiw]
    exact ⟨rfl, rfl⟩
  · intro hrun
    simp only [check_schedule]
    split_ifs with hA hB hC <;> simp_all

theorem claim_C3_witness :
    ((check_schedule exampleCleanState 540 540 "2026-10-12" 0 86400
        (fun _ _ => false) true).2.1 = SchedAction.dispatchRun
     ∧ (check_schedule exampleCleanState 540 540 "2026-10-12" 0 86400
         (fun _ _ => false) true).1.data.global_last_run_date = "2026-10-12")
    ∧ (check_schedule exampleRanTodayState 540 545 "2026-10-12" 0 86400
        (fun _ _ => false) true).2.1 ≠ SchedAction.dispatchRun :=
  ⟨(claim_C3_once_per_day exampleCleanState 540 540 "2026-10-12" 0 86400
      (fun _ _ => false) true).1 (by decide) (by decide) (by decide)
      (by decide),
   (claim_C3_once_per_day exampleRanTodayState 540 545 "2026-10-12" 0 86400
      (fun _ _ => false) true).2 rfl⟩

/-- Claim C1 (code bug): the claim — following the spec and the source's
own dead `else` branch at `src/main.py:322`–`324` — says a first
evaluation of the day more than `CATCH_UP_WINDOW` past the target logs a
missed-window warning and still sets the marker. In the code,
`is_time_up` can only be true when `in_window` is also true (it is
`current == target`, which forces `current - target = 0 ≤ 180`, or is
set by the `current > target and in_window` catch-up rule), so the
warning branch is unreachable (first conjunct: every evaluation yields
dispatch, silent self-check, or nothing). At the claim's concrete input
— target 09:00, first tick of the day at 13:01, marker not today — the
evaluation only takes the minute lock and changes nothing else: no
inspection runs, no warning-branch action occurs, and the marker stays
empty (second conjunct). -/
theorem claim_C1_late_window_dead_branch :
    (∀ (st : PluginState) (target_minutes current_minutes : Int)
       (today : String) (now_ts : Int) (timeout_seconds : ℚ)
       (sendOutcomes : String → Nat → Bool) (writeOk : Bool),
       (check_schedule st target_minutes current_minutes today now_ts
          timeout_seconds sendOutcomes writeOk).2.1 = SchedAction.dispatchRun
       ∨ (check_schedule st target_minutes current_minutes today now_ts
            timeout_seconds sendOutcomes writeOk).2.1 = SchedAction.silentRun
       ∨ (check_schedule st target_minutes current_minutes today now_ts
            timeout_seconds sendOutcomes writeOk).2.1 = SchedAction.noAction)
    ∧ check_schedule exampleCleanState 540 781 "2026-10-12" 0 86400
        (fun _ _ => true) true
      = ({ exampleCleanState with last_processed_minute := 781 },
         SchedAction.noAction, none) := by
  constructor
  · intro st target_minutes current_minutes today now_ts timeout_seconds
      sendOutcomes writeOk
    simp only [check_schedule]
    split_ifs with h₁ h₂ h₃ h₄ h₅ <;> simp_all [CATCH_UP_WINDOW]
  · decide
